import Mathlib

/-!
# Verification of the radio rating subsystem

Shallow embedding of the rating subsystem of the `radio` repository:
the `song_ratings` / `song_star_ratings` tables, the upsert-based submit
functions, the aggregation queries, the per-user lookups, the request
validators on the HTTP routes, the dual SQLite/PostgreSQL storage driver,
error propagation, and the startup sequence.

Numbers that the JavaScript code handles as IEEE doubles are modelled as
exact rationals (`ℚ`); all values arising here (integer ratings, their sums,
means of small integers, one-decimal roundings) are exactly representable,
so no double-rounding artefact is lost by this choice.
-/

namespace Radio

/-- A row of `song_ratings` / `song_star_ratings`: columns `id` (surrogate key,
AUTOINCREMENT), `song_id`, `user_id`, `rating`, `created_at` (timestamp,
modelled as a `Nat` tick). -/
structure Row where
  id : Nat
  song_id : String
  user_id : String
  rating : Int
  created_at : Nat
  deriving Repr, DecidableEq

/-- Mutable table state: the rows plus the engine's autoincrement counter and
the `sqlite3_last_insert_rowid` register (better-sqlite3 exposes it as
`result.lastInsertRowid`; it is updated only by inserts). -/
structure Db where
  rows : List Row
  nextId : Nat
  lastRowid : Nat
  deriving Repr, DecidableEq

/-- The empty table at process start. SQLite AUTOINCREMENT starts at 1 and
`last_insert_rowid()` is 0 before any insert. -/
def Db.empty : Db := { rows := [], nextId := 1, lastRowid := 0 }

/-- The `(song_id, user_id)` key test used by the UNIQUE constraint and the
`WHERE song_id = ? AND user_id = ?` lookups. -/
def keyMatch (s u : String) (r : Row) : Bool :=
  r.song_id == s && r.user_id == u

/-- Number of rows holding the key `(s, u)` — the quantity bounded by the
`UNIQUE(song_id, user_id)` constraint. -/
def countKey (rows : List Row) (s u : String) : Nat :=
  (rows.filter (keyMatch s u)).length

/-- Engine-level result of running a statement: `changes` (SQLite) /
`rowCount` (PostgreSQL) and the rowid register after the statement. -/
structure RunResult where
  changes : Nat
  rowidAfter : Nat
  deriving Repr, DecidableEq

/-- Semantics of the shared upsert statement

`INSERT INTO t (song_id, user_id, rating) VALUES (?, ?, ?)
 ON CONFLICT(song_id, user_id) DO UPDATE SET rating = ?, created_at = CURRENT_TIMESTAMP`

with `insVal` bound in the VALUES list and `updVal` bound in the DO UPDATE
SET clause (the source binds the same rating to both; keeping them separate
slots makes the parameter plumbing of each driver branch visible).
If a row with the key exists the conflicting row is updated in place;
otherwise a fresh row is appended with the next surrogate id.  Both engines
report 1 affected row in either case. -/
def upsertDb (db : Db) (s u : String) (insVal updVal : Int) (now : Nat) :
    Db × RunResult :=
  if db.rows.any (keyMatch s u) then
    ({ db with
        rows := db.rows.map fun r =>
          if keyMatch s u r then { r with rating := updVal, created_at := now } else r },
      { changes := 1, rowidAfter := db.lastRowid })
  else
    ({ rows := db.rows ++ [{ id := db.nextId, song_id := s, user_id := u,
                             rating := insVal, created_at := now }],
       nextId := db.nextId + 1,
       lastRowid := db.nextId },
      { changes := 1, rowidAfter := db.nextId })

/-- `submitRating(songId, userId, rating)`: runs the sentiment upsert with
parameters `[songId, userId, rating, rating]` and returns `changes > 0`. -/
def submitRating (db : Db) (songId userId : String) (rating : Int) (now : Nat) :
    Db × Bool :=
  let (db', res) := upsertDb db songId userId rating rating now
  (db', res.changes > 0)

/-- `submitStarRating(songId, userId, rating)`: same upsert shape against
`song_star_ratings`. -/
def submitStarRating (db : Db) (songId userId : String) (rating : Int) (now : Nat) :
    Db × Bool :=
  let (db', res) := upsertDb db songId userId rating rating now
  (db', res.changes > 0)

/-- `SUM(CASE WHEN rating = v THEN 1 ELSE 0 END)` over the rows with
`song_id = s`: SQL `SUM` over zero rows is NULL, modelled as `none`. -/
def sumCase (rows : List Row) (s : String) (v : Int) : Option Int :=
  let f := rows.filter fun r => r.song_id == s
  if f.isEmpty then none
  else some (f.foldl (fun acc r => acc + (if r.rating == v then 1 else 0)) 0)

/-- The JavaScript `x || 0` / `parseInt(x) || 0` normalisation applied to a
nullable SQL sum: NULL becomes 0 (and 0 stays 0). -/
def jsOrZero (x : Option Int) : Int :=
  match x with
  | none => 0
  | some n => n

/-- `getRatings(songId)` (database.js lines 118-131): the two CASE sums over
`song_ratings WHERE song_id = ?`, each normalised with `|| 0`. -/
def getRatings (rows : List Row) (s : String) : Int × Int :=
  (jsOrZero (sumCase rows s 1), jsOrZero (sumCase rows s (-1)))

/-- `AVG(rating)` over the rows with `song_id = s`: NULL over zero rows. -/
def avgRating (rows : List Row) (s : String) : Option ℚ :=
  let f := rows.filter fun r => r.song_id == s
  if f.isEmpty then none
  else some ((f.map fun r => (r.rating : ℚ)).sum / (f.length : ℚ))

/-- `parseFloat(x.toFixed(1))`: rounding to one decimal place.  On the
nonnegative values arising here `toFixed` rounds half away from zero, which
coincides with `round` (half up) on exact rationals. -/
def round1 (q : ℚ) : ℚ :=
  ((round (10 * q) : ℤ) : ℚ) / 10

/-- `getStarRatings(songId)`: `AVG(rating)`, `COUNT(*)` over
`song_star_ratings WHERE song_id = ?`; the JavaScript maps a falsy average
(NULL, or the number 0) to the numeral 0 and otherwise rounds it to one
decimal, and the count is `parseInt(...) || 0`. -/
def getStarRatings (rows : List Row) (s : String) : ℚ × Nat :=
  let f := rows.filter fun r => r.song_id == s
  (match avgRating rows s with
   | none => 0
   | some a => if a = 0 then 0 else round1 a,
   f.length)

/-- `getUserRating(songId, userId)`: `SELECT rating ... WHERE song_id = ?
AND user_id = ?` via `.get` (first row or `undefined`), then
`result ? result.rating : null`. -/
def getUserRating (rows : List Row) (s u : String) : Option Int :=
  match rows.find? (keyMatch s u) with
  | some r => some r.rating
  | none => none

/-- `getUserStarRating(songId, userId)`: identical shape against
`song_star_ratings`. -/
def getUserStarRating (rows : List Row) (s u : String) : Option Int :=
  match rows.find? (keyMatch s u) with
  | some r => some r.rating
  | none => none

/-- Rows for song `s` carrying rating `v` (the quantity `getRatings` is
claimed to report). -/
def countFor (rows : List Row) (s : String) (v : Int) : Nat :=
  (rows.filter fun r => r.song_id == s && r.rating == v).length

/-- Number of distinct users holding a rating for song `s`. -/
def distinctUserCount (rows : List Row) (s : String) : Nat :=
  (((rows.filter fun r => r.song_id == s).map Row.user_id).dedup).length

/-! ## JavaScript request values and the route handlers -/

/-- A JSON/JavaScript value as it reaches the route handlers: a number (an
IEEE double, modelled as an exact rational), a string, or `undefined` for a
missing field. -/
inductive JSVal
  | num (q : ℚ)
  | str (s : String)
  | undef
  deriving Repr, DecidableEq

/-- JavaScript truthiness of the values above: the number `0`, the empty
string and `undefined` are falsy. -/
def JSVal.truthy : JSVal → Bool
  | .num q => decide (q ≠ 0)
  | .str s => decide (s ≠ "")
  | .undef => false

/-- JavaScript strict equality (`===` / `!==`): values of different types
are never equal; in particular no string compares equal to a number. -/
def JSVal.strictEq : JSVal → JSVal → Bool
  | .num a, .num b => decide (a = b)
  | .str a, .str b => a == b
  | .undef, .undef => true
  | _, _ => false

/-- `typeof x === 'number'`. -/
def JSVal.isNumber : JSVal → Bool
  | .num _ => true
  | _ => false

/-- `Number.isInteger(x)`. -/
def JSVal.isIntegerNum : JSVal → Bool
  | .num q => decide (q.den = 1)
  | _ => false

/-- The numeric value of a number (only read behind an `isNumber` guard in
the short-circuiting validator conditions). -/
def JSVal.numVal : JSVal → ℚ
  | .num q => q
  | .str _ => 0
  | .undef => 0

/-- Outcome of a POST rating route: the 400 rejection — on which the submit
function is never invoked — or a submit invocation carrying the arguments
the route passes through. -/
inductive PostOutcome
  | badRequest
  | submitted (songId userId rating : JSVal)
  deriving Repr, DecidableEq

/-- `POST /api/ratings` (server.js lines 136-153): rejects with 400 when
`!songId || !userId || (rating !== 1 && rating !== -1)`; only otherwise does
it call `submitRating(songId, userId, rating)`. -/
def postRatings (songId userId rating : JSVal) : PostOutcome :=
  if !songId.truthy || !userId.truthy
      || (!(rating.strictEq (.num 1)) && !(rating.strictEq (.num (-1)))) then
    .badRequest
  else
    .submitted songId userId rating

/-- `POST /api/star-ratings` (the route of
`__tests__/backend/api-star-ratings.test.js`, lines 74-91): rejects with 400
when `!songId || !userId || typeof rating !== 'number' ||
!Number.isInteger(rating) || rating < 1 || rating > 5`; only otherwise does
it call `submitStarRating`. -/
def postStarRatings (songId userId rating : JSVal) : PostOutcome :=
  if !songId.truthy || !userId.truthy || !rating.isNumber || !rating.isIntegerNum
      || decide (rating.numVal < 1) || decide (rating.numVal > 5) then
    .badRequest
  else
    .submitted songId userId rating

/-- Wire response of `GET /api/ratings/:songId`, together with whether the
route invoked the user-rating lookup. -/
structure GetResponse where
  thumbs_up : Int
  thumbs_down : Int
  userRating : Option Int
  lookupPerformed : Bool
  deriving Repr, DecidableEq

/-- `GET /api/ratings/:songId` (server.js lines 155-173): always returns the
aggregate counts; computes `userRating ? getUserRating(songId, userId) :
null` — the lookup runs only when the `userId` query parameter is truthy
(absent → `undefined`; present but empty → `""`, both falsy). -/
def getRatingsRoute (rows : List Row) (songId : String)
    (userIdParam : Option String) : GetResponse :=
  let ratings := getRatings rows songId
  match userIdParam with
  | some uid =>
      if (JSVal.str uid).truthy then
        { thumbs_up := ratings.1, thumbs_down := ratings.2,
          userRating := getUserRating rows songId uid, lookupPerformed := true }
      else
        { thumbs_up := ratings.1, thumbs_down := ratings.2,
          userRating := none, lookupPerformed := false }
  | none =>
      { thumbs_up := ratings.1, thumbs_down := ratings.2,
        userRating := none, lookupPerformed := false }

/-- Wire response of `GET /api/star-ratings/:songId`. -/
structure StarGetResponse where
  average_rating : ℚ
  total_ratings : Nat
  userRating : Option Int
  lookupPerformed : Bool
  deriving Repr, DecidableEq

/-- `GET /api/star-ratings/:songId` (test route lines 94-112): same shape
over `getStarRatings` / `getUserStarRating`. -/
def getStarRatingsRoute (rows : List Row) (songId : String)
    (userIdParam : Option String) : StarGetResponse :=
  let ratings := getStarRatings rows songId
  match userIdParam with
  | some uid =>
      if (JSVal.str uid).truthy then
        { average_rating := ratings.1, total_ratings := ratings.2,
          userRating := getUserStarRating rows songId uid, lookupPerformed := true }
      else
        { average_rating := ratings.1, total_ratings := ratings.2,
          userRating := none, lookupPerformed := false }
  | none =>
      { average_rating := ratings.1, total_ratings := ratings.2,
        userRating := none, lookupPerformed := false }

/-! ## The dual-backend storage driver -/

/-- The `?` → `$n` placeholder translation performed by the PostgreSQL
branches of `query`/`queryOne`/`execute` (part_001 lines 38-40): each
successive `?` becomes `$1`, `$2`, … via `sql.replace` with a counter. -/
def toPgSql (sql : String) : String :=
  (sql.toList.foldl
    (fun (acc : String × Nat) c =>
      if c = '?' then (acc.1 ++ "$" ++ toString acc.2, acc.2 + 1)
      else (acc.1.push c, acc.2))
    ("", 1)).1

/-- The sentiment upsert SQL of the SQLite branch of `submitRating`
(part_001 lines 276-280), with its four ordinal placeholders. -/
def sentimentUpsertSqliteSql : String :=
  "\n      INSERT INTO song_ratings (song_id, user_id, rating)\n      VALUES (?, ?, ?)\n      ON CONFLICT(song_id, user_id) DO UPDATE SET rating = ?, created_at = CURRENT_TIMESTAMP\n    "

/-- The sentiment aggregation SQL passed to `queryOne` (part_001 lines
290-296). -/
def sentimentAggSql : String :=
  "\n    SELECT\n      SUM(CASE WHEN rating = 1 THEN 1 ELSE 0 END) as thumbs_up,\n      SUM(CASE WHEN rating = -1 THEN 1 ELSE 0 END) as thumbs_down\n    FROM song_ratings\n    WHERE song_id = ?\n  "

/-- The per-user lookup SQL passed to `queryOne` (part_001 line 310). -/
def sentimentLookupSql : String :=
  "SELECT rating FROM song_ratings WHERE song_id = ? AND user_id = ?"

/-- SQLite branch of `submitRating` (part_001 lines 276-281): executes the
four-placeholder upsert with parameter list `[songId, userId, rating,
rating]` — the third `?` is the inserted value and the fourth `?` the DO
UPDATE value — and returns `result.changes > 0`. -/
def sqliteSubmitRating (db : Db) (songId userId : String) (rating : Int)
    (now : Nat) : Db × Bool :=
  let p₃ := rating
  let p₄ := rating
  let (db', res) := upsertDb db songId userId p₃ p₄ now
  (db', res.changes > 0)

/-- PostgreSQL branch of `submitRating` (part_001 lines 268-274): runs the
three-parameter form of the upsert in which `$3` is bound both as the
inserted value and as the DO UPDATE value, and returns
`result.rowCount > 0`. -/
def pgSubmitRating (db : Db) (songId userId : String) (rating : Int)
    (now : Nat) : Db × Bool :=
  let p₃ := rating
  let (db', res) := upsertDb db songId userId p₃ p₃ now
  (db', res.changes > 0)

/-- SQLite branch of `submitStarRating` (part_001 lines 328-334). -/
def sqliteSubmitStarRating (db : Db) (songId userId : String) (rating : Int)
    (now : Nat) : Db × Bool :=
  let p₃ := rating
  let p₄ := rating
  let (db', res) := upsertDb db songId userId p₃ p₄ now
  (db', res.changes > 0)

/-- PostgreSQL branch of `submitStarRating` (part_001 lines 321-327). -/
def pgSubmitStarRating (db : Db) (songId userId : String) (rating : Int)
    (now : Nat) : Db × Bool :=
  let p₃ := rating
  let (db', res) := upsertDb db songId userId p₃ p₃ now
  (db', res.changes > 0)

/-- Driver-level result of `execute` as surfaced to callers. -/
structure ExecResult where
  changes : Nat
  lastInsertRowid : Option Nat
  deriving Repr, DecidableEq

/-- SQLite branch of `execute` (part_001 lines 91-104) applied to the
sentiment upsert: surfaces `result.changes` and the engine's
`result.lastInsertRowid` — always a number. -/
def sqliteExecuteUpsert (db : Db) (songId userId : String) (rating : Int)
    (now : Nat) : Db × ExecResult :=
  let (db', res) := upsertDb db songId userId rating rating now
  (db', { changes := res.changes, lastInsertRowid := some res.rowidAfter })

/-- PostgreSQL branch of `execute` (part_001 lines 83-90) applied to the
translated upsert: `changes := result.rowCount` and `lastInsertRowid :=
result.rows[0]?.id || null`; the upsert carries no RETURNING clause, so
`result.rows` is empty and the field is the none-sentinel. -/
def pgExecuteUpsert (db : Db) (songId userId : String) (rating : Int)
    (now : Nat) : Db × ExecResult :=
  let (db', res) := upsertDb db songId userId rating rating now
  (db', { changes := res.changes, lastInsertRowid := none })

/-- `stmt.get(...)` of the SQLite branch of `queryOne` (part_001 lines
67-76): the first result row, or — after `result || null` — the
none-sentinel. -/
def sqliteQueryOne {α : Type} (resultRows : List α) : Option α :=
  resultRows.head?

/-- `result.rows[0] || null` of the PostgreSQL branch of `queryOne`
(part_001 lines 61-65). -/
def pgQueryOne {α : Type} (resultRows : List α) : Option α :=
  match resultRows with
  | [] => none
  | r :: _ => some r

/-- Result rows of the per-user lookup statement: the `rating` column of the
rows matching the key, in table order. -/
def lookupRows (rows : List Row) (s u : String) : List Int :=
  (rows.filter (keyMatch s u)).map Row.rating

/-- `getUserRating` as the SQLite backend computes it: `queryOne` over the
lookup statement, then `result ? result.rating : null`. -/
def sqliteGetUserRating (rows : List Row) (s u : String) : Option Int :=
  sqliteQueryOne (lookupRows rows s u)

/-- `getUserRating` as the PostgreSQL backend computes it. -/
def pgGetUserRating (rows : List Row) (s u : String) : Option Int :=
  pgQueryOne (lookupRows rows s u)

/-! ## Error propagation -/

/-- Typed storage-layer errors as the engines raise them: constraint
violations (`SQLITE_CONSTRAINT` / SQLSTATE class 23) are tagged distinctly
from connection-level failures; `otherFailure` covers the remaining engine
errors. -/
inductive DbError
  | constraintViolation (msg : String)
  | storageUnavailable (msg : String)
  | otherFailure (msg : String)
  deriving Repr, DecidableEq

/-- Only a transient storage failure is sensibly retryable by a caller. -/
def DbError.retryable : DbError → Bool
  | .storageUnavailable _ => true
  | _ => false

/-- `error.message`. -/
def DbError.message : DbError → String
  | .constraintViolation m => m
  | .storageUnavailable m => m
  | .otherFailure m => m

/-- The driver's `execute` around an engine outcome (part_001 lines 82-105):
a successful run is shaped into `{changes, lastInsertRowid}`; a failing run
is rejected with the engine's own error value, untouched
(`catch (error)` followed by `reject(error)`). -/
def executeDriver (engineOutcome : Except DbError RunResult) :
    Except DbError ExecResult :=
  match engineOutcome with
  | .error e => .error e
  | .ok r => .ok { changes := r.changes, lastInsertRowid := some r.rowidAfter }

/-- The driver's `queryOne` around an engine outcome (part_001 lines 60-77):
first row or the none-sentinel on success, the engine's error unchanged on
failure. -/
def queryOneDriver {α : Type} (engineOutcome : Except DbError (List α)) :
    Except DbError (Option α) :=
  match engineOutcome with
  | .error e => .error e
  | .ok rows => .ok rows.head?

/-- `submitRating` over a fallible engine: the repository has no catch of
its own, so the awaited rejection propagates as-is. -/
def submitRatingE (engineOutcome : Except DbError RunResult) :
    Except DbError Bool :=
  match executeDriver engineOutcome with
  | .error e => .error e
  | .ok r => .ok (r.changes > 0)

/-- `getUserRating` over a fallible engine. -/
def getUserRatingE (engineOutcome : Except DbError (List Int)) :
    Except DbError (Option Int) :=
  match queryOneDriver engineOutcome with
  | .error e => .error e
  | .ok (some rating) => .ok (some rating)
  | .ok none => .ok none

/-- A reply of the POST rating route. -/
inductive RouteReply
  | okReply (success : Bool) (message : String)
  | serverError (error : String)
  deriving Repr, DecidableEq

/-- The route-level catch (server.js lines 136-153): the single boundary
converting a propagated error into the HTTP 500 envelope carrying the
error's message. -/
def postRatingsReply (submitOutcome : Except DbError Bool) : RouteReply :=
  match submitOutcome with
  | .ok true => .okReply true "Rating submitted successfully"
  | .ok false => .okReply false "Rating submission failed"
  | .error e => .serverError e.message

/-! ## Startup sequencing -/

/-- Externally delivered event-loop events after module load: an incoming
HTTP request, or the settlement of the schema-initialisation promise. -/
inductive IoEvent
  | request
  | initFailed
  | initSucceeded
  deriving Repr, DecidableEq

/-- Observable process behaviour during startup. -/
inductive Obs
  | requestHandled
  | processExited
  deriving Repr, DecidableEq

/-- Whether the backend delivers a schema-creation failure synchronously
during module load.  The embedded engine's `exec` throws inside
`initDatabase()` before the promise is handed back, so the rejection's
`catch` handler — `process.exit(1)`, part_001 lines 384-387 — runs at the
microtask checkpoint that precedes every I/O event.  The PostgreSQL pool
reports the failure as a later network completion event, while `app.listen`
(server.js lines 176-183) has already been called without awaiting
`initDatabase()`. -/
structure Startup where
  failsDuringLoad : Bool
  deriving Repr, DecidableEq

/-- Embedded (SQLite) backend whose schema creation fails. -/
def embeddedFailingStartup : Startup := { failsDuringLoad := true }

/-- Networked (PostgreSQL) backend whose schema creation fails. -/
def networkedFailingStartup : Startup := { failsDuringLoad := false }

/-- One event-loop step over state `(exited?, observations)`: after
`process.exit` nothing further happens; otherwise an incoming request is
handled (the listener is already installed), and a delivered init failure
runs the `catch` handler, which exits the process. -/
def stepLoop (st : Bool × List Obs) (ev : IoEvent) : Bool × List Obs :=
  if st.1 then st
  else
    match ev with
    | .request => (false, st.2 ++ [.requestHandled])
    | .initFailed => (true, st.2 ++ [.processExited])
    | .initSucceeded => (false, st.2)

/-- Observable trace of a startup, for an environment-chosen order of I/O
completions: a load-time failure exits at the first microtask checkpoint,
before any I/O event is processed. -/
def runStartup (s : Startup) (events : List IoEvent) : List Obs :=
  let init : Bool × List Obs :=
    if s.failsDuringLoad then (true, [.processExited]) else (false, [])
  (events.foldl stepLoop init).2

/-! ## Helper lemmas about the upsert and the aggregates -/

lemma submitStarRating_eq_submitRating : submitStarRating = submitRating := rfl

lemma getUserStarRating_eq_getUserRating : getUserStarRating = getUserRating := rfl

/-- Updating `rating`/`created_at` does not change the `(song_id, user_id)` key. -/
lemma keyMatch_set (s u : String) (v : Int) (now : Nat) (r : Row) :
    keyMatch s u { r with rating := v, created_at := now } = keyMatch s u r := rfl

lemma keyMatch_comp_upd (s u : String) (v : Int) (now : Nat) :
    (keyMatch s u ∘ fun r =>
        if keyMatch s u r then { r with rating := v, created_at := now } else r)
      = keyMatch s u := by
  funext r
  by_cases h : keyMatch s u r = true
  · simp [Function.comp, h, keyMatch_set]
  · simp [Function.comp, h]

/-- The DO UPDATE branch touches only rows of the conflicting key, so the
count of rows per key is unchanged. -/
lemma countKey_map_upd (rows : List Row) (s u : String) (v : Int) (now : Nat) :
    countKey (rows.map fun r =>
        if keyMatch s u r then { r with rating := v, created_at := now } else r) s u
      = countKey rows s u := by
  unfold countKey
  rw [List.filter_map, List.length_map, keyMatch_comp_upd]

lemma countKey_pos_of_any {rows : List Row} {s u : String}
    (h : rows.any (keyMatch s u) = true) : 0 < countKey rows s u := by
  obtain ⟨r, hr, hkey⟩ := List.any_eq_true.mp h
  have : r ∈ rows.filter (keyMatch s u) := List.mem_filter.mpr ⟨hr, hkey⟩
  exact List.length_pos.mpr (List.ne_nil_of_mem this)

lemma countKey_eq_zero_of_not_any {rows : List Row} {s u : String}
    (h : rows.any (keyMatch s u) = false) : countKey rows s u = 0 := by
  unfold countKey
  have : rows.filter (keyMatch s u) = [] := by
    rw [List.filter_eq_nil_iff]
    intro r hr hk
    have hT := List.any_eq_true.mpr ⟨r, hr, hk⟩
    rw [h] at hT
    exact Bool.false_ne_true hT
  simp [this]

/-- After a submit, the submitted key holds exactly one row — provided the
table respected the `UNIQUE(song_id, user_id)` constraint beforehand. -/
lemma countKey_submit (db : Db) (s u : String) (v : Int) (now : Nat)
    (h : countKey db.rows s u ≤ 1) :
    countKey (submitRating db s u v now).1.rows s u = 1 := by
  unfold submitRating upsertDb
  by_cases hany : db.rows.any (keyMatch s u) = true
  · have hpos := countKey_pos_of_any hany
    simp only [hany, if_true]
    rw [countKey_map_upd]
    omega
  · rw [Bool.not_eq_true] at hany
    simp only [hany, Bool.false_eq_true, if_false]
    unfold countKey
    rw [List.filter_append]
    have hz := countKey_eq_zero_of_not_any hany
    unfold countKey at hz
    simp [hz, keyMatch]

/-- A submit never breaks the per-key uniqueness bound. -/
lemma countKey_submit_le (db : Db) (s u : String) (v : Int) (now : Nat)
    (h : countKey db.rows s u ≤ 1) :
    countKey (submitRating db s u v now).1.rows s u ≤ 1 :=
  le_of_eq (countKey_submit db s u v now h)

/-- Immediately after `submitRating songId userId v`, the user's stored value
for that song is `v` (both in the insert and in the overwrite branch). -/
lemma getUserRating_submit (db : Db) (s u : String) (v : Int) (now : Nat) :
    getUserRating (submitRating db s u v now).1.rows s u = some v := by
  unfold submitRating upsertDb getUserRating
  by_cases hany : db.rows.any (keyMatch s u) = true
  · simp only [hany, if_true]
    rw [List.find?_map, keyMatch_comp_upd]
    obtain ⟨r, hr, hkey⟩ := List.any_eq_true.mp hany
    have hsome : (db.rows.find? (keyMatch s u)).isSome := by
      rw [List.find?_isSome]
      exact ⟨r, hr, hkey⟩
    obtain ⟨r₀, hr₀⟩ := Option.isSome_iff_exists.mp hsome
    have hk₀ : keyMatch s u r₀ = true := List.find?_some hr₀
    simp [hr₀, hk₀]
  · rw [Bool.not_eq_true] at hany
    simp only [hany, Bool.false_eq_true, if_false]
    have hnone : db.rows.find? (keyMatch s u) = none := by
      rw [List.find?_eq_none]
      intro r hr hk
      have hT := List.any_eq_true.mpr ⟨r, hr, hk⟩
      rw [hany] at hT
      exact Bool.false_ne_true hT
    rw [List.find?_append, hnone]
    simp [keyMatch]

/-- Any two members of a list of length at most one coincide. -/
lemma mem_eq_of_length_le_one {α : Type} {l : List α} (h : l.length ≤ 1)
    {a b : α} (ha : a ∈ l) (hb : b ∈ l) : a = b := by
  match l with
  | [] => cases ha
  | [x] =>
    rw [List.mem_singleton] at ha hb
    rw [ha, hb]
  | x :: y :: t => simp at h

/-- The accumulator form of `SUM(CASE WHEN rating = v THEN 1 ELSE 0 END)`
counts the rows with rating `v`. -/
lemma foldl_sumCase (v : Int) (f : List Row) (n : Int) :
    f.foldl (fun acc r => acc + (if r.rating == v then 1 else 0)) n
      = n + ((f.filter fun r => r.rating == v).length : Int) := by
  induction f generalizing n with
  | nil => simp
  | cons r t ih =>
    by_cases h : (r.rating == v) = true
    · simp only [List.foldl_cons, List.filter_cons, h, if_true, List.length_cons]
      rw [ih]
      push_cast
      ring
    · rw [Bool.not_eq_true] at h
      simp only [List.foldl_cons, List.filter_cons, h, Bool.false_eq_true, if_false]
      rw [ih]
      ring

/-- Rows whose rating lies in `{+1, -1}` split into the `+1` rows and the
`-1` rows. -/
lemma count_split (f : List Row) (h : ∀ r ∈ f, r.rating = 1 ∨ r.rating = -1) :
    (f.filter fun r => r.rating == (1 : Int)).length
      + (f.filter fun r => r.rating == (-1 : Int)).length = f.length := by
  induction f with
  | nil => simp
  | cons r t ih =>
    have ht : ∀ x ∈ t, x.rating = 1 ∨ x.rating = -1 := fun x hx => h x (List.mem_cons_of_mem r hx)
    have hih := ih ht
    rcases h r (List.mem_cons_self r t) with h1 | h1
    · have e1 : (r.rating == (1 : Int)) = true := by rw [h1]; rfl
      have e2 : (r.rating == (-1 : Int)) = false := by rw [h1]; rfl
      simp [List.filter_cons, e1, e2]
      omega
    · have e1 : (r.rating == (1 : Int)) = false := by rw [h1]; rfl
      have e2 : (r.rating == (-1 : Int)) = true := by rw [h1]; rfl
      simp [List.filter_cons, e1, e2]
      omega

/-- A list of rationals that are all at least 1 sums to at least its length. -/
lemma length_le_sum (l : List ℚ) (h : ∀ x ∈ l, 1 ≤ x) : (l.length : ℚ) ≤ l.sum := by
  induction l with
  | nil => simp
  | cons x t ih =>
    have hx := h x (List.mem_cons_self x t)
    have ht := ih fun y hy => h y (List.mem_cons_of_mem x hy)
    simp only [List.length_cons, List.sum_cons]
    push_cast
    linarith

/-- Conjunctive-filter count equals the nested filter count. -/
lemma countFor_eq (rows : List Row) (s : String) (v : Int) :
    countFor rows s v
      = ((rows.filter fun r => r.song_id == s).filter fun r => r.rating == v).length := by
  unfold countFor
  rw [List.filter_filter]
  apply congrArg List.length
  apply List.filter_congr
  intro r _
  exact Bool.and_comm _ _

/-- `getRatings` returns exactly the `+1`-row count and the `-1`-row count. -/
lemma getRatings_eq_counts (rows : List Row) (s : String) :
    getRatings rows s = ((countFor rows s 1 : Int), (countFor rows s (-1) : Int)) := by
  unfold getRatings jsOrZero sumCase
  by_cases he : (rows.filter fun r => r.song_id == s).isEmpty = true
  · have hfe : (rows.filter fun r => r.song_id == s) = [] := by
      rwa [List.isEmpty_iff] at he
    rw [countFor_eq, countFor_eq, hfe]
    simp [he]
  · rw [Bool.not_eq_true] at he
    simp only [he, Bool.false_eq_true, if_false]
    rw [foldl_sumCase, foldl_sumCase, countFor_eq, countFor_eq]
    simp

/-- `getUserRating` is the first row of the key, when one exists. -/
lemma getUserRating_of_find {rows : List Row} {s u : String} {r₀ : Row}
    (h : rows.find? (keyMatch s u) = some r₀) :
    getUserRating rows s u = some r₀.rating := by
  unfold getUserRating
  rw [h]

/-- `find?` returns the head of the filtered list. -/
lemma find?_eq_head?_filter {α : Type} (p : α → Bool) (l : List α) :
    l.find? p = (l.filter p).head? := by
  induction l with
  | nil => rfl
  | cons a t ih =>
    by_cases h : p a = true
    · rw [List.find?_cons_of_pos _ h, List.filter_cons_of_pos h]
      rfl
    · rw [Bool.not_eq_true] at h
      rw [List.find?_cons_of_neg, List.filter_cons_of_neg, ih]
      · rw [h]; exact Bool.false_ne_true
      · rw [h]; exact Bool.false_ne_true

/-- Once the process has exited, later I/O events change nothing. -/
lemma foldl_stepLoop_exited (evs : List IoEvent) (obs : List Obs) :
    evs.foldl stepLoop (true, obs) = (true, obs) := by
  induction evs with
  | nil => rfl
  | cons e t ih =>
    rw [List.foldl_cons]
    exact ih

/-! ## Claim theorems -/

/-- C1: For every sequence of submit operations (sentiment via
`submitRating`, star via `submitStarRating`) with any values `v₁, v₂` for the
same `(songId, userId)` key, after submitting `v₁` then `v₂` the table holds
exactly one row for that key, its value equals `v₂`, and the row count for
that key never exceeds 1 at any point in the sequence (granted the table
respected the `UNIQUE(song_id, user_id)` constraint beforehand). -/
theorem c1_idempotent_overwrite (db sdb : Db) (s u : String) (v₁ v₂ w₁ w₂ : Int)
    (t₁ t₂ : Nat)
    (hinv : countKey db.rows s u ≤ 1) (hsinv : countKey sdb.rows s u ≤ 1) :
    countKey (submitRating db s u v₁ t₁).1.rows s u = 1 ∧
    countKey (submitRating (submitRating db s u v₁ t₁).1 s u v₂ t₂).1.rows s u = 1 ∧
    getUserRating (submitRating (submitRating db s u v₁ t₁).1 s u v₂ t₂).1.rows s u
      = some v₂ ∧
    countKey (submitStarRating sdb s u w₁ t₁).1.rows s u = 1 ∧
    countKey (submitStarRating (submitStarRating sdb s u w₁ t₁).1 s u w₂ t₂).1.rows s u
      = 1 ∧
    getUserStarRating
        (submitStarRating (submitStarRating sdb s u w₁ t₁).1 s u w₂ t₂).1.rows s u
      = some w₂ := by
  have h1 := countKey_submit db s u v₁ t₁ hinv
  have h2 := countKey_submit (submitRating db s u v₁ t₁).1 s u v₂ t₂ (le_of_eq h1)
  have h3 := getUserRating_submit (submitRating db s u v₁ t₁).1 s u v₂ t₂
  rw [submitStarRating_eq_submitRating, getUserStarRating_eq_getUserRating]
  have h4 := countKey_submit sdb s u w₁ t₁ hsinv
  have h5 := countKey_submit (submitRating sdb s u w₁ t₁).1 s u w₂ t₂ (le_of_eq h4)
  have h6 := getUserRating_submit (submitRating sdb s u w₁ t₁).1 s u w₂ t₂
  exact ⟨h1, h2, h3, h4, h5, h6⟩

/-- Witness for C1 at a concrete input: overwrite `+1` with `-1` (sentiment)
and `5` with `2` (star) on empty tables. -/
theorem c1_idempotent_overwrite_witness :
    countKey (submitRating Db.empty "songA" "u1" 1 0).1.rows "songA" "u1" = 1 ∧
    countKey (submitRating (submitRating Db.empty "songA" "u1" 1 0).1
        "songA" "u1" (-1) 1).1.rows "songA" "u1" = 1 ∧
    getUserRating (submitRating (submitRating Db.empty "songA" "u1" 1 0).1
        "songA" "u1" (-1) 1).1.rows "songA" "u1" = some (-1) ∧
    countKey (submitStarRating Db.empty "songA" "u1" 5 0).1.rows "songA" "u1" = 1 ∧
    countKey (submitStarRating (submitStarRating Db.empty "songA" "u1" 5 0).1
        "songA" "u1" 2 1).1.rows "songA" "u1" = 1 ∧
    getUserStarRating (submitStarRating (submitStarRating Db.empty "songA" "u1" 5 0).1
        "songA" "u1" 2 1).1.rows "songA" "u1" = some 2 :=
  c1_idempotent_overwrite Db.empty Db.empty "songA" "u1" 1 (-1) 5 2 0 1
    (by decide) (by decide)

/-- C2: For stored sentiment rows of one song — ratings in `{+1, -1}` by
the CHECK constraint, users pairwise distinct by the UNIQUE constraint —
`getRatings` returns the count of `+1` rows and the count of `-1` rows, and
the two counts sum to the number of distinct users who rated the song. -/
theorem c2_sentiment_aggregation (rows : List Row) (s : String)
    (hdom : ∀ r ∈ rows, r.song_id = s → r.rating = 1 ∨ r.rating = -1)
    (huniq : ((rows.filter fun r => r.song_id == s).map Row.user_id).Nodup) :
    (getRatings rows s).1 = (countFor rows s 1 : Int) ∧
    (getRatings rows s).2 = (countFor rows s (-1) : Int) ∧
    countFor rows s 1 + countFor rows s (-1) = distinctUserCount rows s := by
  refine ⟨by rw [getRatings_eq_counts], by rw [getRatings_eq_counts], ?_⟩
  rw [countFor_eq, countFor_eq]
  have hsplit := count_split (rows.filter fun r => r.song_id == s) ?_
  · unfold distinctUserCount
    rw [List.dedup_eq_self.mpr huniq, List.length_map]
    exact hsplit
  · intro r hr
    have hm := List.mem_filter.mp hr
    exact hdom r hm.1 (beq_iff_eq.mp hm.2)

/-- Witness for C2: three users on one song, two thumbs up and one down. -/
theorem c2_sentiment_aggregation_witness :
    (getRatings [⟨1, "songA", "u1", 1, 0⟩, ⟨2, "songA", "u2", 1, 0⟩,
        ⟨3, "songA", "u3", -1, 0⟩] "songA").1
      = (countFor [⟨1, "songA", "u1", 1, 0⟩, ⟨2, "songA", "u2", 1, 0⟩,
          ⟨3, "songA", "u3", -1, 0⟩] "songA" 1 : Int) ∧
    (getRatings [⟨1, "songA", "u1", 1, 0⟩, ⟨2, "songA", "u2", 1, 0⟩,
        ⟨3, "songA", "u3", -1, 0⟩] "songA").2
      = (countFor [⟨1, "songA", "u1", 1, 0⟩, ⟨2, "songA", "u2", 1, 0⟩,
          ⟨3, "songA", "u3", -1, 0⟩] "songA" (-1) : Int) ∧
    countFor [⟨1, "songA", "u1", 1, 0⟩, ⟨2, "songA", "u2", 1, 0⟩,
        ⟨3, "songA", "u3", -1, 0⟩] "songA" 1
      + countFor [⟨1, "songA", "u1", 1, 0⟩, ⟨2, "songA", "u2", 1, 0⟩,
          ⟨3, "songA", "u3", -1, 0⟩] "songA" (-1)
      = distinctUserCount [⟨1, "songA", "u1", 1, 0⟩, ⟨2, "songA", "u2", 1, 0⟩,
          ⟨3, "songA", "u3", -1, 0⟩] "songA" :=
  c2_sentiment_aggregation _ "songA" (by decide) (by decide)

/-- C3: For every nonempty set of stored star rows for a song — values in
`[1,5]` by the CHECK constraint — `getStarRatings` returns the arithmetic
mean of the stored values rounded to one decimal place together with the row
count; in particular submissions `{5,4}` through the submit pipeline yield
average `4.5` with `2` ratings, and `{1,5}` yield `3.0`. -/
theorem c3_star_aggregation (rows : List Row) (s : String)
    (hne : (rows.filter fun r => r.song_id == s) ≠ [])
    (hdom : ∀ r ∈ rows, r.song_id = s → 1 ≤ r.rating ∧ r.rating ≤ 5) :
    ((getStarRatings rows s).1
        = round1 ((((rows.filter fun r => r.song_id == s).map
              fun r => (r.rating : ℚ)).sum)
            / ((rows.filter fun r => r.song_id == s).length : ℚ)) ∧
      (getStarRatings rows s).2 = (rows.filter fun r => r.song_id == s).length) ∧
    getStarRatings (submitStarRating (submitStarRating Db.empty
        "songB" "u1" 5 0).1 "songB" "u2" 4 1).1.rows "songB" = (9/2, 2) ∧
    getStarRatings (submitStarRating (submitStarRating Db.empty
        "songC" "u1" 1 0).1 "songC" "u2" 5 1).1.rows "songC" = (3, 2) := by
  refine ⟨?_, ?_, ?_⟩
  · have hlenpos : 0 < (rows.filter fun r => r.song_id == s).length :=
      List.length_pos.mpr hne
    have hone : ∀ x ∈ (rows.filter fun r => r.song_id == s).map
        (fun r => (r.rating : ℚ)), 1 ≤ x := by
      intro x hx
      obtain ⟨r, hr, hxe⟩ := List.mem_map.mp hx
      have hm := List.mem_filter.mp hr
      have h1 := (hdom r hm.1 (beq_iff_eq.mp hm.2)).1
      rw [← hxe]
      exact_mod_cast h1
    have hsum := length_le_sum _ hone
    rw [List.length_map] at hsum
    have hpos : (0 : ℚ) < ((rows.filter fun r => r.song_id == s).length : ℚ) := by
      exact_mod_cast hlenpos
    have havg1 : 1 ≤ (((rows.filter fun r => r.song_id == s).map
          fun r => (r.rating : ℚ)).sum)
        / ((rows.filter fun r => r.song_id == s).length : ℚ) :=
      (one_le_div hpos).mpr hsum
    have hne0 : (((rows.filter fun r => r.song_id == s).map
          fun r => (r.rating : ℚ)).sum)
        / ((rows.filter fun r => r.song_id == s).length : ℚ) ≠ 0 := by
      intro h0
      rw [h0] at havg1
      exact absurd havg1 (by norm_num)
    have hemp : (rows.filter fun r => r.song_id == s).isEmpty = false := by
      rw [List.isEmpty_eq_false]
      exact hne
    unfold getStarRatings avgRating
    simp only [hemp, Bool.false_eq_true, if_false, hne0]
    constructor <;> first | rfl | trivial
  · have e1 : (submitStarRating (submitStarRating Db.empty
        "songB" "u1" 5 0).1 "songB" "u2" 4 1).1.rows
        = [⟨1, "songB", "u1", 5, 0⟩, ⟨2, "songB", "u2", 4, 1⟩] := by decide
    rw [e1]
    have hf : List.filter (fun r => r.song_id == "songB")
        [(⟨1, "songB", "u1", 5, 0⟩ : Row), ⟨2, "songB", "u2", 4, 1⟩]
        = [⟨1, "songB", "u1", 5, 0⟩, ⟨2, "songB", "u2", 4, 1⟩] := by decide
    unfold getStarRatings avgRating
    rw [hf]
    norm_num [round1, round_eq]
  · have e1 : (submitStarRating (submitStarRating Db.empty
        "songC" "u1" 1 0).1 "songC" "u2" 5 1).1.rows
        = [⟨1, "songC", "u1", 1, 0⟩, ⟨2, "songC", "u2", 5, 1⟩] := by decide
    rw [e1]
    have hf : List.filter (fun r => r.song_id == "songC")
        [(⟨1, "songC", "u1", 1, 0⟩ : Row), ⟨2, "songC", "u2", 5, 1⟩]
        = [⟨1, "songC", "u1", 1, 0⟩, ⟨2, "songC", "u2", 5, 1⟩] := by decide
    unfold getStarRatings avgRating
    rw [hf]
    norm_num [round1, round_eq]

/-- Witness for C3: the `{5,4}` scenario from the spec discharges the
nonemptiness and domain hypotheses at a concrete table. -/
theorem c3_star_aggregation_witness :
    (getStarRatings [⟨1, "songB", "u1", 5, 0⟩, ⟨2, "songB", "u2", 4, 1⟩] "songB").1
        = round1 (((([⟨1, "songB", "u1", 5, 0⟩,
              (⟨2, "songB", "u2", 4, 1⟩ : Row)].filter
                fun r => r.song_id == "songB").map fun r => (r.rating : ℚ)).sum)
            / (([⟨1, "songB", "u1", 5, 0⟩,
              (⟨2, "songB", "u2", 4, 1⟩ : Row)].filter
                fun r => r.song_id == "songB").length : ℚ)) ∧
    (getStarRatings [⟨1, "songB", "u1", 5, 0⟩, ⟨2, "songB", "u2", 4, 1⟩] "songB").2
        = ([⟨1, "songB", "u1", 5, 0⟩, (⟨2, "songB", "u2", 4, 1⟩ : Row)].filter
            fun r => r.song_id == "songB").length :=
  (c3_star_aggregation [⟨1, "songB", "u1", 5, 0⟩, ⟨2, "songB", "u2", 4, 1⟩] "songB"
    (by decide) (by decide)).1

/-- C6: A `songId` with no stored rows yields exactly
`{thumbs_up := 0, thumbs_down := 0}` for sentiment and
`{average_rating := 0, total_ratings := 0}` for star — the NULL produced by
`SUM`/`AVG` over zero rows is mapped to 0, not to an error or a none-value. -/
theorem c6_zero_state (rows srows : List Row) (s : String)
    (h : rows.filter (fun r => r.song_id == s) = [])
    (hs : srows.filter (fun r => r.song_id == s) = []) :
    getRatings rows s = (0, 0) ∧ getStarRatings srows s = (0, 0) := by
  constructor
  · unfold getRatings jsOrZero sumCase
    simp [h]
  · unfold getStarRatings avgRating
    simp [hs]

/-- Witness for C6: the empty tables. -/
theorem c6_zero_state_witness :
    getRatings [] "songX" = (0, 0) ∧ getStarRatings [] "songX" = (0, 0) :=
  c6_zero_state [] [] "songX" rfl rfl

/-- C9: `getUserRating` (and `getUserStarRating`) returns the stored
value when a row for the key exists — with the UNIQUE bound, exactly the
value of that row — and the explicit none-sentinel, unequal to `some v` for
every value `v`, when no row exists. -/
theorem c9_user_lookup (rows srows : List Row) (s u : String) :
    ((∃ r ∈ rows, keyMatch s u r = true) →
        ∃ r ∈ rows, keyMatch s u r = true ∧ getUserRating rows s u = some r.rating) ∧
    ((∀ r ∈ rows, keyMatch s u r = false) →
        getUserRating rows s u = none ∧ ∀ v : Int, getUserRating rows s u ≠ some v) ∧
    (countKey rows s u ≤ 1 → ∀ r ∈ rows, keyMatch s u r = true →
        getUserRating rows s u = some r.rating) ∧
    ((∃ r ∈ srows, keyMatch s u r = true) →
        ∃ r ∈ srows, keyMatch s u r = true ∧
          getUserStarRating srows s u = some r.rating) ∧
    ((∀ r ∈ srows, keyMatch s u r = false) →
        getUserStarRating srows s u = none ∧
          ∀ v : Int, getUserStarRating srows s u ≠ some v) := by
  rw [getUserStarRating_eq_getUserRating]
  refine ⟨?_, ?_, ?_, ?_, ?_⟩
  · intro hex
    have hsome : (rows.find? (keyMatch s u)).isSome := List.find?_isSome.mpr hex
    obtain ⟨r₀, hr₀⟩ := Option.isSome_iff_exists.mp hsome
    exact ⟨r₀, List.mem_of_find?_eq_some hr₀, List.find?_some hr₀,
      getUserRating_of_find hr₀⟩
  · intro hnone
    have hfind : rows.find? (keyMatch s u) = none := by
      rw [List.find?_eq_none]
      intro r hr hk
      rw [hnone r hr] at hk
      exact Bool.false_ne_true hk
    have : getUserRating rows s u = none := by
      unfold getUserRating
      rw [hfind]
    exact ⟨this, fun v hv => by rw [this] at hv; cases hv⟩
  · intro hle r hr hk
    have hsome : (rows.find? (keyMatch s u)).isSome := List.find?_isSome.mpr ⟨r, hr, hk⟩
    obtain ⟨r₀, hr₀⟩ := Option.isSome_iff_exists.mp hsome
    have heq : r = r₀ := by
      apply mem_eq_of_length_le_one (l := rows.filter (keyMatch s u)) hle
      · exact List.mem_filter.mpr ⟨hr, hk⟩
      · exact List.mem_filter.mpr ⟨List.mem_of_find?_eq_some hr₀, List.find?_some hr₀⟩
    rw [heq]
    exact getUserRating_of_find hr₀
  · intro hex
    have hsome : (srows.find? (keyMatch s u)).isSome := List.find?_isSome.mpr hex
    obtain ⟨r₀, hr₀⟩ := Option.isSome_iff_exists.mp hsome
    exact ⟨r₀, List.mem_of_find?_eq_some hr₀, List.find?_some hr₀,
      getUserRating_of_find hr₀⟩
  · intro hnone
    have hfind : srows.find? (keyMatch s u) = none := by
      rw [List.find?_eq_none]
      intro r hr hk
      rw [hnone r hr] at hk
      exact Bool.false_ne_true hk
    have : getUserRating srows s u = none := by
      unfold getUserRating
      rw [hfind]
    exact ⟨this, fun v hv => by rw [this] at hv; cases hv⟩

/-- Witness for C9: a one-row sentiment table looked up at its key and at an
absent key, and an empty star table. -/
theorem c9_user_lookup_witness :
    getUserRating [⟨1, "songA", "u1", 1, 0⟩] "songA" "u1" = some 1 ∧
    getUserRating [⟨1, "songA", "u1", 1, 0⟩] "songA" "u9" = none ∧
    getUserStarRating [] "songA" "u1" = none := by
  have h := c9_user_lookup [⟨1, "songA", "u1", 1, 0⟩] [] "songA" "u1"
  have h9 := c9_user_lookup [⟨1, "songA", "u1", 1, 0⟩] [] "songA" "u9"
  refine ⟨?_, ?_, ?_⟩
  · exact h.2.2.1 (by decide) ⟨1, "songA", "u1", 1, 0⟩ (by decide) (by decide)
  · exact (h9.2.1 (by decide)).1
  · exact (h.2.2.2.2 (by decide)).1

/-- Any value failing the integer-in-`[1,5]` characterisation is rejected by
the star validator, whatever the ids are. -/
lemma postStarRatings_reject (s u v : JSVal)
    (h : ¬ (v.isNumber = true ∧ v.isIntegerNum = true ∧
        1 ≤ v.numVal ∧ v.numVal ≤ 5)) :
    postStarRatings s u v = .badRequest := by
  unfold postStarRatings
  have hc : (!s.truthy || !u.truthy || !v.isNumber || !v.isIntegerNum
      || decide (v.numVal < 1) || decide (v.numVal > 5)) = true := by
    by_cases h3 : v.isNumber = true
    · by_cases h4 : v.isIntegerNum = true
      · by_cases h5 : (1 : ℚ) ≤ v.numVal
        · have h6 : ¬ (v.numVal ≤ 5) := fun h6 => h ⟨h3, h4, h5, h6⟩
          have hd : decide (v.numVal > 5) = true := decide_eq_true (not_le.mp h6)
          simp [hd]
        · have hd : decide (v.numVal < 1) = true := decide_eq_true (not_le.mp h5)
          simp [hd]
      · rw [Bool.not_eq_true] at h4
        simp [h4]
    · rw [Bool.not_eq_true] at h3
      simp [h3]
  simp [hc]

/-- Any value other than the numbers `+1`/`-1` is rejected by the sentiment
validator, whatever the ids are (strict equality never equates a string to a
number). -/
lemma postRatings_reject (s u v : JSVal)
    (h1 : v ≠ .num 1) (h2 : v ≠ .num (-1)) :
    postRatings s u v = .badRequest := by
  unfold postRatings
  have e1 : v.strictEq (.num 1) = false := by
    cases v with
    | num q => exact decide_eq_false fun hq => h1 (by rw [hq])
    | str a => rfl
    | undef => rfl
  have e2 : v.strictEq (.num (-1)) = false := by
    cases v with
    | num q => exact decide_eq_false fun hq => h2 (by rw [hq])
    | str a => rfl
    | undef => rfl
  simp [e1, e2]

/-- A falsy `songId` or `userId` short-circuits both validators. -/
lemma post_reject_of_falsy_id (s u v : JSVal)
    (h : s.truthy = false ∨ u.truthy = false) :
    postRatings s u v = .badRequest ∧ postStarRatings s u v = .badRequest := by
  unfold postRatings postStarRatings
  rcases h with h | h <;> simp [h]

/-- C4: For every submission request, the validator rejects with 400 —
and the repository submit function is never invoked, the rejection being the
non-submitting outcome — when the star value is `0`, `6`, `-1`, `3.5` or
the string `"5"` (in general any value that is not an integer number in
`[1,5]`), when the sentiment value is anything other than the numbers `+1`
and `-1` (so `0`, `2` and numeric strings are rejected), or when `songId` or
`userId` is missing or empty. -/
theorem c4_validator_rejection (s u v : JSVal) :
    (postStarRatings s u (.num 0) = .badRequest ∧
     postStarRatings s u (.num 6) = .badRequest ∧
     postStarRatings s u (.num (-1)) = .badRequest ∧
     postStarRatings s u (.num (7/2)) = .badRequest ∧
     postStarRatings s u (.str "5") = .badRequest) ∧
    (¬ (v.isNumber = true ∧ v.isIntegerNum = true ∧
        1 ≤ v.numVal ∧ v.numVal ≤ 5) →
      postStarRatings s u v = .badRequest) ∧
    (v ≠ .num 1 → v ≠ .num (-1) → postRatings s u v = .badRequest) ∧
    (postRatings s u (.num 0) = .badRequest ∧
     postRatings s u (.num 2) = .badRequest ∧
     postRatings s u (.str "1") = .badRequest ∧
     postRatings s u (.str "-1") = .badRequest) ∧
    ((s = .undef ∨ s = .str "" ∨ u = .undef ∨ u = .str "") →
      postRatings s u v = .badRequest ∧ postStarRatings s u v = .badRequest) := by
  refine ⟨⟨?_, ?_, ?_, ?_, ?_⟩, ?_, ?_, ⟨?_, ?_, ?_, ?_⟩, ?_⟩
  · exact postStarRatings_reject s u _ (by decide)
  · exact postStarRatings_reject s u _ (by decide)
  · exact postStarRatings_reject s u _ (by decide)
  · apply postStarRatings_reject
    rintro ⟨-, hint, -, -⟩
    have hden : (7/2 : ℚ).den = 2 := by norm_num
    unfold JSVal.isIntegerNum at hint
    rw [decide_eq_true_eq, hden] at hint
    exact absurd hint (by omega)
  · exact postStarRatings_reject s u _ (by decide)
  · exact postStarRatings_reject s u v
  · exact postRatings_reject s u v
  · exact postRatings_reject s u _ (by decide) (by decide)
  · exact postRatings_reject s u _ (by decide) (by decide)
  · exact postRatings_reject s u _ (by decide) (by decide)
  · exact postRatings_reject s u _ (by decide) (by decide)
  · intro h
    apply post_reject_of_falsy_id
    rcases h with h | h | h | h <;> rw [h] <;> simp [JSVal.truthy]

/-- Witness for C4: the hypotheses of the conditional conjuncts discharged
at `rating = 0` with truthy ids, and at a missing `songId`. -/
theorem c4_validator_rejection_witness :
    postStarRatings (.str "songA") (.str "u1") (.num 0) = .badRequest ∧
    postRatings (.str "songA") (.str "u1") (.num 0) = .badRequest ∧
    postRatings .undef (.str "u1") (.num 0) = .badRequest ∧
    postStarRatings .undef (.str "u1") (.num 0) = .badRequest := by
  have h1 := c4_validator_rejection (.str "songA") (.str "u1") (.num 0)
  have h2 := c4_validator_rejection .undef (.str "u1") (.num 0)
  exact ⟨h1.2.1 (by decide), h1.2.2.1 (by decide) (by decide),
    (h2.2.2.2.2 (by decide)).1, (h2.2.2.2.2 (by decide)).2⟩

/-- C10: On the GET rating endpoints an empty-string `userId` query
parameter behaves exactly like an absent one: the lookup is not performed
and `userRating` is the none-sentinel — even when a row keyed on the
empty-string user exists — while the aggregates are returned normally. -/
theorem c10_empty_userid_like_absent (rows srows : List Row) (s : String) :
    getRatingsRoute rows s (some "") = getRatingsRoute rows s none ∧
    (getRatingsRoute rows s (some "")).userRating = none ∧
    (getRatingsRoute rows s (some "")).lookupPerformed = false ∧
    (getRatingsRoute rows s (some "")).thumbs_up = (getRatings rows s).1 ∧
    (getRatingsRoute rows s (some "")).thumbs_down = (getRatings rows s).2 ∧
    getStarRatingsRoute srows s (some "") = getStarRatingsRoute srows s none ∧
    (getStarRatingsRoute srows s (some "")).userRating = none ∧
    (getStarRatingsRoute srows s (some "")).lookupPerformed = false ∧
    (getStarRatingsRoute srows s (some "")).average_rating
      = (getStarRatings srows s).1 ∧
    (getStarRatingsRoute srows s (some "")).total_ratings
      = (getStarRatings srows s).2 ∧
    getUserRating [⟨1, "songA", "", 1, 0⟩] "songA" "" = some 1 ∧
    (getRatingsRoute [⟨1, "songA", "", 1, 0⟩] "songA" (some "")).userRating
      = none := by
  exact ⟨rfl, rfl, rfl, rfl, rfl, rfl, rfl, rfl, rfl, rfl, by decide, rfl⟩

/-- C5, counterexample: the two backend branches of `execute` are not
observationally equivalent.  On the rating upsert — which has no RETURNING
clause — the SQLite branch reports the engine rowid in `lastInsertRowid`
while the PostgreSQL branch reports the none-sentinel
(`result.rows[0]?.id || null` over an empty `rows`). -/
theorem c5_execute_branches_differ :
    (sqliteExecuteUpsert Db.empty "songA" "u1" 1 0).2
      ≠ (pgExecuteUpsert Db.empty "songA" "u1" 1 0).2 ∧
    (sqliteExecuteUpsert Db.empty "songA" "u1" 1 0).2.lastInsertRowid = some 1 ∧
    (pgExecuteUpsert Db.empty "songA" "u1" 1 0).2.lastInsertRowid = none := by
  refine ⟨by decide, by decide, by decide⟩

set_option maxRecDepth 4000 in
/-- C5, amended: every rating operation produces the same logical result on
both backends — the submit branches (with the repeated upsert parameter
plumbed per engine) coincide with each other and with the repository
function, the `queryOne` branches coincide, the `execute` branches coincide
on the resulting table and on the affected-count (the only part rating
operations consume), and the ordinal `?` placeholders translate to `$1`,
`$2`, … positionally — but the `lastInsertRowid` field of `execute` is
engine-dependent. -/
theorem c5_backend_equivalence (db sdb : Db) (rows : List Row) (s u : String)
    (v : Int) (t : Nat) :
    sqliteSubmitRating db s u v t = pgSubmitRating db s u v t ∧
    sqliteSubmitStarRating sdb s u v t = pgSubmitStarRating sdb s u v t ∧
    sqliteSubmitRating db s u v t = submitRating db s u v t ∧
    sqliteSubmitStarRating sdb s u v t = submitStarRating sdb s u v t ∧
    (sqliteExecuteUpsert db s u v t).1 = (pgExecuteUpsert db s u v t).1 ∧
    (sqliteExecuteUpsert db s u v t).2.changes
      = (pgExecuteUpsert db s u v t).2.changes ∧
    (∀ resultRows : List Int, sqliteQueryOne resultRows = pgQueryOne resultRows) ∧
    sqliteGetUserRating rows s u = pgGetUserRating rows s u ∧
    sqliteGetUserRating rows s u = getUserRating rows s u ∧
    toPgSql sentimentLookupSql
      = "SELECT rating FROM song_ratings WHERE song_id = $1 AND user_id = $2" ∧
    toPgSql sentimentAggSql
      = "\n    SELECT\n      SUM(CASE WHEN rating = 1 THEN 1 ELSE 0 END) as thumbs_up,\n      SUM(CASE WHEN rating = -1 THEN 1 ELSE 0 END) as thumbs_down\n    FROM song_ratings\n    WHERE song_id = $1\n  " ∧
    toPgSql sentimentUpsertSqliteSql
      = "\n      INSERT INTO song_ratings (song_id, user_id, rating)\n      VALUES ($1, $2, $3)\n      ON CONFLICT(song_id, user_id) DO UPDATE SET rating = $4, created_at = CURRENT_TIMESTAMP\n    " := by
  refine ⟨rfl, rfl, rfl, rfl, rfl, rfl, fun resultRows => rfl, rfl, ?_, ?_, ?_, ?_⟩
  · have hb := find?_eq_head?_filter (keyMatch s u) rows
    unfold sqliteGetUserRating sqliteQueryOne lookupRows getUserRating
    rw [List.head?_map, ← hb]
    cases rows.find? (keyMatch s u) <;> rfl
  · decide
  · decide
  · decide

/-- C7: every storage-layer error raised during a repository operation
propagates to the caller as the engine's own typed error, so the
constraint-violation / transient-failure distinction (only the latter
retryable) is preserved; the driver and repository never catch, hide or
re-type such errors, and only the route boundary converts them — into the
500 envelope carrying the error's message. -/
theorem c7_error_propagation (e : DbError) (r : RunResult) :
    executeDriver (.error e) = .error e ∧
    queryOneDriver (α := Int) (.error e) = .error e ∧
    submitRatingE (.error e) = .error e ∧
    getUserRatingE (.error e) = .error e ∧
    (∀ m : String, DbError.retryable (.constraintViolation m) = false) ∧
    (∀ m : String, DbError.retryable (.storageUnavailable m) = true) ∧
    postRatingsReply (.error e) = .serverError e.message ∧
    submitRatingE (.ok r) = .ok (decide (r.changes > 0)) := by
  exact ⟨rfl, rfl, rfl, rfl, fun m => rfl, fun m => rfl, rfl, rfl⟩

/-- C8: a schema-creation failure on the embedded backend is delivered
during module load, so the scheduled `process.exit(1)` precedes every I/O
event and no request is ever handled; but on the networked backend
`app.listen` runs without awaiting `initDatabase()`, so a request arriving
before the failure's delivery is fully handled even though schema creation
fails — the code violates the claim there. -/
theorem c8_startup_race :
    runStartup networkedFailingStartup [.request, .initFailed]
      = [.requestHandled, .processExited] ∧
    Obs.requestHandled ∈ runStartup networkedFailingStartup [.request, .initFailed] ∧
    (∀ events : List IoEvent,
      Obs.requestHandled ∉ runStartup embeddedFailingStartup events) := by
  refine ⟨rfl, by decide, ?_⟩
  intro events
  have h : runStartup embeddedFailingStartup events = [Obs.processExited] := by
    show (events.foldl stepLoop (true, [Obs.processExited])).2 = [Obs.processExited]
    rw [foldl_stepLoop_exited]
  rw [h]
  decide

end Radio
